import Mathlib

/-!
Shallow embedding of the rustavel schema-definition and migration core.

The definitions below translate, item by item, the Rust sources of the
repository:

* the column/table data model and its builders (`src/core/table.rs`);
* the two dialect SQL generators (`core/src/sql/mysql.rs`,
  `core/src/sql/sqlite.rs`);
* the two database clients (`core/src/sql/database_client.rs`), with the
  row-fetching layer abstracted into an explicit list of already fetched
  rows;
* the Schema orchestrator (`core/src/db/schema.rs`): the registry of
  declared tables, `create`/`table` declaration merging, and
  `execute_migration` assembly and execution;
* the migration runner (`database/src/migrator.rs`), modelled as the
  trace of observable calls a successful run performs.

Rust `format!` strings are reproduced character for character (including
incidental double spaces); single quote characters inside SQL text are
written with the `\x27` escape.  Mutable state is threaded explicitly; the
builder closures of the Rust DSL become plain functions on `Table`.
-/

/-- Join a list of strings with a separator (the `Str::implode` helper of
the `illuminate_string` crate used by `Schema::execute_migration`). -/
def Str.implode (sep : String) (parts : List String) : String :=
  String.intercalate sep parts

/-- Boolean test that `pat` is a prefix of `s` (as character lists). -/
def listPrefixOf : List Char → List Char → Bool
  | [], _ => true
  | _ :: _, [] => false
  | a :: pat, b :: s => a == b && listPrefixOf pat s

/-- Boolean test that `pat` occurs contiguously somewhere inside `s`. -/
def listOccurs (pat : List Char) : List Char → Bool
  | [] => listPrefixOf pat []
  | b :: s => listPrefixOf pat (b :: s) || listOccurs pat s

/-- Boolean test that the string `sub` occurs as a substring of `s`. -/
def strContains (s sub : String) : Bool :=
  listOccurs sub.data s.data

/-! ### Column/Table data model (`src/core/table.rs`) -/

/-- Intended action of a declared table (`TableAction` in `table.rs`). -/
inductive TableAction
  | None
  | Create
  | Alter
  deriving DecidableEq, Repr

/-- Closed column-type taxonomy (`ColumnDataType` in `table.rs`). -/
inductive ColumnDataType
  | DTId
  | DTBoolean
  | DTTinyInteger
  | DTInteger
  | DTSmallInteger
  | DTMediumInteger
  | DTBigInteger
  | DTFloat
  | DTDouble
  | DTDecimal
  | DTString
  | DTText
  | DTTinyText
  | DTMediumText
  | DTLongText
  | DTJson
  | DTDate
  | DTDateTime
  | DTTime
  | DTTimestamp
  | DTTimestamps
  | DTSoftDelete
  | DTEnum
  | DTSet
  | DTMorph
  | DTNone
  deriving DecidableEq, Repr

/-- Type-specific column parameters (`ColumnOption` in `table.rs`);
Rust integer widths `i32`/`i8` are modelled by `Int`. -/
inductive ColumnOption
  | none
  | length (l : Int)
  | precision (p : Int)
  | values (vs : List String)
  | float (p s : Int)
  | index (s : String)
  deriving DecidableEq, Repr

/-- Column default value (`DefaultValue` in `table.rs`; the spelling
`currenTimestamp` follows the source). -/
inductive DefaultValue
  | none
  | null
  | jsonArray
  | bool (b : Bool)
  | int (i : Int)
  | string (s : String)
  | currenTimestamp
  deriving DecidableEq, Repr

/-- One column of a declared table (`Column` in `table.rs`). -/
structure Column where
  name : String
  data_type : ColumnDataType
  nullable : Bool
  option : ColumnOption
  comment : String
  unique : Bool
  index : Bool
  unsigned : Bool
  default : DefaultValue
  change : Bool
  collation : String
  deriving DecidableEq, Repr

/-- One foreign key of a declared table (`ForeignKey` in `table.rs`). -/
structure ForeignKey where
  column_name : String
  foreign_table : String
  referenced_column : String
  on_delete : Bool
  on_update : Bool
  deriving DecidableEq, Repr

/-- One declared table (`Table` in `table.rs`). -/
structure Table where
  name : String
  columns : List Column
  foreign_keys : List ForeignKey
  comment : String
  action : TableAction
  drop_columns : List String
  deriving DecidableEq, Repr

/-- Fresh table as built by `Table::new`. -/
def Table.new (table_name : String) : Table :=
  { name := table_name
    columns := []
    foreign_keys := []
    comment := ""
    action := TableAction.None
    drop_columns := [] }

/-- Mark a column name for removal (`Table::drop_column`); it only pushes
the name, with no check against the table action. -/
def Table.drop_column (t : Table) (n : String) : Table :=
  { t with drop_columns := t.drop_columns ++ [n] }

/-- The column defaults used by `Table::column` when a builder starts. -/
def Table.freshColumn (n : String) (dt : ColumnDataType) (opt : ColumnOption) : Column :=
  { name := n
    data_type := dt
    option := opt
    nullable := false
    unique := false
    index := false
    default := DefaultValue.none
    comment := ""
    unsigned := false
    change := false
    collation := "" }

/-- String-like type test (`Column::is_string_type`). -/
def Column.isStringType (c : Column) : Bool :=
  match c.data_type with
  | ColumnDataType.DTString
  | ColumnDataType.DTLongText
  | ColumnDataType.DTMediumText
  | ColumnDataType.DTTinyText
  | ColumnDataType.DTJson => true
  | _ => false

/-- Structural legality check of one column (`Column::validate` in
`table.rs`): `false` marks the column invalid.  The caller
(`Table::validate`) only logs invalid columns and never rejects them. -/
def Column.validate (c : Column) : Bool :=
  match c.data_type with
  | ColumnDataType.DTNone => false
  | ColumnDataType.DTString
  | ColumnDataType.DTLongText
  | ColumnDataType.DTMediumText
  | ColumnDataType.DTTinyText
  | ColumnDataType.DTJson =>
    if c.unsigned then false
    else
      match c.option with
      | ColumnOption.length l =>
        if l ≤ 0 then false
        else if 255 < l ∧ (c.index || c.unique) = true then false
        else true
      | _ => if c.index || c.unique then false else true
  | ColumnDataType.DTBoolean => if c.unique then false else true
  | _ => true

/-- Structural legality check of one foreign key (`ForeignKey::validate`):
all three identity fields must be non-empty. -/
def ForeignKey.validate (k : ForeignKey) : Bool :=
  !(k.column_name.isEmpty || k.referenced_column.isEmpty || k.foreign_table.isEmpty)

/-! ### MySQL dialect generator (`core/src/sql/mysql.rs`) -/

/-- Column fragment generation of `MySqlGenerator::column`: returns the
column clause, the table-footer clause and the (always empty) post
statement.  Every `format!` template is reproduced verbatim. -/
def MySqlGenerator.column (c : Column) (table_name : String) (action : TableAction) :
    String × String × String :=
  let nullable := if c.nullable then "NULL" else "NOT NULL"
  let collation0 := c.collation
  let unsigned := if c.unsigned then "UNSIGNED" else ""
  let defv :=
    match c.default with
    | DefaultValue.null => "DEFAULT NULL"
    | DefaultValue.string s => " DEFAULT \x27" ++ s ++ "\x27 "
    | DefaultValue.jsonArray => "DEFAULT json_array()"
    | DefaultValue.currenTimestamp => "DEFAULT current_timestamp()"
    | DefaultValue.bool b => if b then "DEFAULT b\x271\x27" else "DEFAULT  b\x270\x27"
    | DefaultValue.int v => "DEFAULT \x27" ++ toString v ++ "\x27"
    | _ => ""
  let base : String × String × String :=
    match c.data_type with
    | ColumnDataType.DTId =>
      ("`id` BIGINT(20) UNSIGNED NOT NULL AUTO_INCREMENT", "PRIMARY KEY (`id`)", collation0)
    | ColumnDataType.DTBoolean =>
      ("`" ++ c.name ++ "` BIT(1) " ++ nullable ++ " " ++ defv, "", collation0)
    | ColumnDataType.DTTinyInteger =>
      ("`" ++ c.name ++ "` TINYINT " ++ unsigned ++ " " ++ nullable ++ " " ++ defv, "", collation0)
    | ColumnDataType.DTInteger =>
      ("`" ++ c.name ++ "` INT " ++ unsigned ++ " " ++ nullable ++ " " ++ defv, "", collation0)
    | ColumnDataType.DTSmallInteger =>
      ("`" ++ c.name ++ "` SMALLINT " ++ unsigned ++ " " ++ nullable ++ " " ++ defv, "", collation0)
    | ColumnDataType.DTMediumInteger =>
      ("`" ++ c.name ++ "` MEDIUMINT " ++ unsigned ++ " " ++ nullable ++ " " ++ defv, "", collation0)
    | ColumnDataType.DTBigInteger =>
      ("`" ++ c.name ++ "` BIGINT(20) " ++ unsigned ++ " " ++ nullable ++ " " ++ defv, "", collation0)
    | ColumnDataType.DTFloat =>
      ("`" ++ c.name ++ "` FLOAT " ++ unsigned ++ " " ++ nullable ++ " " ++ defv, "", collation0)
    | ColumnDataType.DTDouble =>
      ("`" ++ c.name ++ "` DOUBLE " ++ unsigned ++ " " ++ nullable ++ " " ++ defv, "", collation0)
    | ColumnDataType.DTDecimal =>
      let ps : Int × Int :=
        match c.option with
        | ColumnOption.float p s => (p, s)
        | _ => (20, 6)
      ("`" ++ c.name ++ "` DECIMAL(" ++ toString ps.1 ++ "," ++ toString ps.2 ++ ") "
        ++ unsigned ++ " " ++ nullable ++ " " ++ defv, "", collation0)
    | ColumnDataType.DTString =>
      let len : Int :=
        match c.option with
        | ColumnOption.length l => l
        | _ => 127
      ("`" ++ c.name ++ "` VARCHAR(" ++ toString len ++ ") " ++ nullable ++ " " ++ defv,
        "", collation0)
    | ColumnDataType.DTText =>
      ("`" ++ c.name ++ "` TEXT " ++ nullable ++ " " ++ defv, "", collation0)
    | ColumnDataType.DTTinyText =>
      ("`" ++ c.name ++ "` TINYTEXT " ++ nullable ++ " " ++ defv, "", collation0)
    | ColumnDataType.DTMediumText =>
      ("`" ++ c.name ++ "` MEDIUMTEXT " ++ nullable ++ " " ++ defv, "", collation0)
    | ColumnDataType.DTLongText =>
      ("`" ++ c.name ++ "` LONGTEXT " ++ nullable ++ " " ++ defv, "", collation0)
    | ColumnDataType.DTJson =>
      ("`" ++ c.name ++ "` LONGTEXT " ++ nullable ++ " " ++ defv,
        "CONSTRAINT `" ++ c.name ++ "` CHECK (json_valid(`data`))",
        if collation0.isEmpty then "utf8mb4_bin" else collation0)
    | ColumnDataType.DTDate =>
      ("`" ++ c.name ++ "` DATE " ++ nullable ++ " " ++ defv, "", collation0)
    | ColumnDataType.DTDateTime =>
      ("`" ++ c.name ++ "` DATETIME " ++ nullable ++ " " ++ defv, "", collation0)
    | ColumnDataType.DTTime =>
      ("`" ++ c.name ++ "` TIME " ++ nullable ++ " " ++ defv, "", collation0)
    | ColumnDataType.DTTimestamp =>
      ("`" ++ c.name ++ "` TIMESTAMP " ++ nullable ++ " " ++ defv, "", collation0)
    | ColumnDataType.DTTimestamps =>
      ("`created_at` TIMESTAMP NULL DEFAULT NULL, `updated_at` TIMESTAMP NULL DEFAULT NULL",
        "", collation0)
    | ColumnDataType.DTSoftDelete =>
      ("`deleted_at` TIMESTAMP NULL DEFAULT NULL", "", collation0)
    | ColumnDataType.DTEnum =>
      let enums :=
        match c.option with
        | ColumnOption.values items =>
          Str.implode ", " (items.map (fun item => "\x27" ++ item ++ "\x27"))
        | _ => "\x27\x27"
      ("`" ++ c.name ++ "` ENUM(" ++ enums ++ ") " ++ nullable ++ " " ++ defv, "", collation0)
    | ColumnDataType.DTSet =>
      let sets :=
        match c.option with
        | ColumnOption.values items =>
          Str.implode ", " (items.map (fun item => "\x27" ++ item ++ "\x27"))
        | _ => "\x27\x27"
      ("`" ++ c.name ++ "` SET(" ++ sets ++ ") " ++ nullable ++ " " ++ defv, "", collation0)
    | ColumnDataType.DTMorph =>
      ("`" ++ c.name ++ "_type` VARCHAR(255) " ++ nullable ++ " " ++ defv ++ " ,`"
          ++ c.name ++ "_id` BIGINT(20) UNSIGNED " ++ nullable ++ " " ++ defv,
        "INDEX `morph_" ++ c.name ++ "_type_" ++ c.name ++ "_id_index` (`"
          ++ c.name ++ "_type`, `" ++ c.name ++ "_id`)",
        collation0)
    | ColumnDataType.DTNone => ("", "", collation0)
  let column_sql := base.1
  let footer_sql := base.2.1
  let collation := base.2.2
  let column_sql :=
    if !c.comment.isEmpty then column_sql ++ " COMMENT \x27" ++ c.comment ++ "\x27 "
    else column_sql
  let column_sql :=
    if !collation.isEmpty && c.isStringType then
      column_sql ++ " COLLATE \x27" ++ collation ++ "\x27 "
    else column_sql
  let footer_sql :=
    if c.index then "INDEX `" ++ c.name ++ "` (`" ++ c.name ++ "`)" else footer_sql
  let footer_sql :=
    if c.unique then
      "UNIQUE INDEX `" ++ table_name ++ "_" ++ c.name ++ "_unique` (`" ++ c.name ++ "`)"
    else footer_sql
  let column_sql :=
    if action = TableAction.Alter then
      if c.change then "CHANGE COLUMN `" ++ c.name ++ "` " ++ column_sql
      else "ADD COLUMN " ++ column_sql
    else column_sql
  (column_sql, footer_sql, "")

/-- Foreign-key constraint clause of `MySqlGenerator::foreign_key`.  The
source binds the local `update` text from `key.on_update` to the string
`ON DELETE CASCADE` and the local `delete` text from `key.on_delete` to
`ON UPDATE CASCADE`; the translation keeps that wiring exactly. -/
def MySqlGenerator.foreign_key (k : ForeignKey) (table_name : String)
    (action : TableAction) : String :=
  let update := if k.on_update then "ON DELETE CASCADE" else ""
  let delete := if k.on_delete then "ON UPDATE CASCADE" else ""
  let pfx := if action = TableAction.Alter then "ADD " else ""
  pfx ++ " CONSTRAINT `" ++ table_name ++ "_" ++ k.column_name
    ++ "_foreign` FOREIGN KEY (`" ++ k.column_name ++ "`) REFERENCES `"
    ++ k.foreign_table ++ "` (`" ++ k.referenced_column ++ "`) "
    ++ update ++ " " ++ delete

/-- Drop-column clause of `MySqlGenerator::drop_column`. -/
def MySqlGenerator.drop_column (column_name : String) : String :=
  "DROP COLUMN `" ++ column_name ++ "`"

/-- Final statement assembly of `MySqlGenerator::table_sql`; `collection`
stands for the configured `CONFIG.database.collection` value. -/
def MySqlGenerator.table_sql (collection : String) (table_name body_sql post_sql : String)
    (action : TableAction) : String :=
  match action with
  | TableAction.Create =>
    "CREATE TABLE `" ++ table_name ++ "` ( \n " ++ body_sql ++ " \n ) COLLATE=\x27"
      ++ collection ++ "\x27 ENGINE=InnoDB; \n " ++ post_sql
  | TableAction.Alter =>
    "ALTER TABLE `" ++ table_name ++ "` \n " ++ body_sql ++ " ; \n " ++ post_sql
  | TableAction.None => ""

/-! ### SQLite dialect generator (`core/src/sql/sqlite.rs`) -/

/-- Column fragment generation of `SqliteGenerator::column`; the
multi-line `format!` templates keep their embedded newlines and
indentation, and the stray backtick placement of the Morph id column is
preserved from the source. -/
def SqliteGenerator.column (c : Column) (table_name : String) (action : TableAction) :
    String × String × String :=
  let nullable := if c.nullable then "" else "NOT NULL"
  let defv :=
    match c.default with
    | DefaultValue.null => ""
    | DefaultValue.string v => "DEFAULT \x27" ++ v ++ "\x27"
    | DefaultValue.jsonArray => "DEFAULT \x27[]\x27"
    | DefaultValue.currenTimestamp => "DEFAULT CURRENT_TIMESTAMP"
    | DefaultValue.bool v => if v then "DEFAULT 1" else "DEFAULT 0"
    | DefaultValue.int v => "DEFAULT " ++ toString v
    | _ => ""
  let base : String × String × String :=
    match c.data_type with
    | ColumnDataType.DTId =>
      ("`id` integer NOT NULL", "PRIMARY KEY(`id` AUTOINCREMENT)", "")
    | ColumnDataType.DTBoolean =>
      ("`" ++ c.name ++ "` boolean " ++ nullable ++ " " ++ defv, "", "")
    | ColumnDataType.DTTinyInteger
    | ColumnDataType.DTInteger
    | ColumnDataType.DTSmallInteger
    | ColumnDataType.DTMediumInteger
    | ColumnDataType.DTBigInteger =>
      ("`" ++ c.name ++ "` integer " ++ nullable ++ " " ++ defv, "", "")
    | ColumnDataType.DTFloat
    | ColumnDataType.DTDouble =>
      ("`" ++ c.name ++ "` float " ++ nullable ++ " " ++ defv, "", "")
    | ColumnDataType.DTDecimal =>
      let ps : Int × Int :=
        match c.option with
        | ColumnOption.float p s => (p, s)
        | _ => (20, 6)
      ("`" ++ c.name ++ "` decimal(" ++ toString ps.1 ++ "," ++ toString ps.2 ++ ") "
        ++ nullable ++ " " ++ defv, "", "")
    | ColumnDataType.DTString =>
      let len : Int :=
        match c.option with
        | ColumnOption.length l => l
        | _ => 255
      ("`" ++ c.name ++ "` varchar(" ++ toString len ++ ") " ++ nullable ++ " " ++ defv,
        "", "")
    | ColumnDataType.DTText
    | ColumnDataType.DTTinyText
    | ColumnDataType.DTMediumText
    | ColumnDataType.DTLongText =>
      ("`" ++ c.name ++ "` text " ++ nullable ++ " " ++ defv, "", "")
    | ColumnDataType.DTJson =>
      ("`" ++ c.name ++ "` json " ++ nullable ++ " " ++ defv
        ++ " CHECK(json_valid(`" ++ c.name ++ "`))", "", "")
    | ColumnDataType.DTDate
    | ColumnDataType.DTDateTime
    | ColumnDataType.DTTime
    | ColumnDataType.DTTimestamp =>
      ("`" ++ c.name ++ "` datetime " ++ nullable ++ " " ++ defv, "", "")
    | ColumnDataType.DTTimestamps =>
      ("`created_at` datetime, `updated_at` datetime", "", "")
    | ColumnDataType.DTSoftDelete =>
      ("`deleted_at` datetime", "", "")
    | ColumnDataType.DTEnum
    | ColumnDataType.DTSet =>
      let vals :=
        match c.option with
        | ColumnOption.values items =>
          Str.implode ", " (items.map (fun v => "\x27" ++ v ++ "\x27"))
        | _ => ""
      ("`" ++ c.name ++ "` varchar " ++ nullable ++ " " ++ defv
        ++ " CHECK(`" ++ c.name ++ "` IN (" ++ vals ++ "))", "", "")
    | ColumnDataType.DTMorph =>
      ("`" ++ c.name ++ "_type` varchar(255) " ++ nullable ++ " " ++ defv
          ++ ", `" ++ c.name ++ "`_id integer " ++ nullable ++ " " ++ defv,
        "",
        "CREATE INDEX `morph_" ++ c.name ++ "_type_" ++ c.name ++ "_id_index`\n"
          ++ "                 ON `" ++ table_name ++ "` (`" ++ c.name ++ "_type`, `"
          ++ c.name ++ "_id`)")
    | ColumnDataType.DTNone => ("", "", "")
  let column_sql := base.1
  let footer_sql := base.2.1
  let post_sql := base.2.2
  let post_sql :=
    if c.unique then
      "CREATE UNIQUE INDEX `" ++ table_name ++ "_" ++ c.name ++ "_unique`\n"
        ++ "             ON `" ++ table_name ++ "` (`" ++ c.name ++ "`)"
    else if c.index then
      "CREATE INDEX `" ++ table_name ++ "_" ++ c.name ++ "_index`\n"
        ++ "             ON `" ++ table_name ++ "` (`" ++ c.name ++ "`)"
    else post_sql
  let column_sql :=
    if action = TableAction.Alter then
      if c.change then column_sql else "ADD COLUMN " ++ column_sql
    else column_sql
  (column_sql, footer_sql, post_sql)

/-- Foreign-key constraint clause of `SqliteGenerator::foreign_key`.  The
source ignores the table name and the action, and quotes
`key.column_name` again in the REFERENCES part instead of
`key.referenced_column`. -/
def SqliteGenerator.foreign_key (k : ForeignKey) (_table_name : String)
    (_action : TableAction) : String :=
  let update := if k.on_update then "on update cascade" else ""
  let delete := if k.on_delete then "on delete cascade" else ""
  "FOREIGN KEY(\"" ++ k.column_name ++ "\") REFERENCES \"" ++ k.foreign_table
    ++ "\"(\"" ++ k.column_name ++ "\") " ++ update ++ " " ++ delete ++ " "

/-- Drop-column placeholder of `SqliteGenerator::drop_column` (a comment,
not executable DDL). -/
def SqliteGenerator.drop_column (column_name : String) : String :=
  "-- SQLite does not support DROP COLUMN directly: `" ++ column_name ++ "`"

/-- Final statement assembly of `SqliteGenerator::table_sql`. -/
def SqliteGenerator.table_sql (table_name body_sql post_sql : String)
    (action : TableAction) : String :=
  match action with
  | TableAction.Create =>
    "CREATE TABLE `" ++ table_name ++ "` ( " ++ body_sql ++ " ) \n ;\n " ++ post_sql
  | TableAction.Alter =>
    "ALTER TABLE `" ++ table_name ++ " \n " ++ body_sql ++ " ; \n " ++ post_sql ++ "`"
  | TableAction.None => ""

/-! ### Generator capability record

The `SqlGenerator` trait methods that `Schema::execute_migration` uses,
packaged as a record so that the orchestrator can be stated once for both
dialects (the Rust code holds a `Box<dyn SqlGenerator>`). -/

/-- Dialect generator capability: exactly the four trait methods consumed
by `Schema::execute_migration`. -/
structure SqlGenerator where
  column : Column → String → TableAction → String × String × String
  foreign_key : ForeignKey → String → TableAction → String
  drop_column : String → String
  table_sql : String → String → String → TableAction → String

/-- The MySQL generator as a capability record; `collection` is the
configured `CONFIG.database.collection` used by `table_sql`. -/
def mysqlGenerator (collection : String) : SqlGenerator :=
  { column := MySqlGenerator.column
    foreign_key := MySqlGenerator.foreign_key
    drop_column := MySqlGenerator.drop_column
    table_sql := MySqlGenerator.table_sql collection }

/-- The SQLite generator as a capability record. -/
def sqliteGenerator : SqlGenerator :=
  { column := SqliteGenerator.column
    foreign_key := SqliteGenerator.foreign_key
    drop_column := SqliteGenerator.drop_column
    table_sql := SqliteGenerator.table_sql }

/-! ### Database clients (`core/src/sql/database_client.rs`)

The sqlx row-fetching layer is abstracted: a query execution outcome is
either an error or the list of rows it returned, and `get0` projects the
first column of a row as an `i64`.  What remains is exactly the post-fetch
logic of the two `fetch_numbers` implementations. -/

/-- Shared error taxonomy (`DbError`); the wrapped sqlx driver error is
modelled by its message text. -/
inductive DbError
  | Sqlx (e : String)
  | InvalidTable
  | NotFound
  | InvalidQuery (s : String)
  deriving DecidableEq, Repr

/-- Post-fetch logic of `MySqlClient::fetch_numbers`.  The source guard is
`if !rows.is_empty() { return Ok(vec![]) }` — the negated emptiness test
is kept as written. -/
def MySqlClient.fetch_numbers {α : Type} (fetched : Except DbError (List α))
    (get0 : α → Int) : Except DbError (List Int) :=
  match fetched with
  | Except.error e => Except.error e
  | Except.ok rows =>
    if !rows.isEmpty then Except.ok []
    else Except.ok (rows.map get0)

/-- Post-fetch logic of `SqliteClient::fetch_numbers`, whose guard is
`if rows.is_empty() { return Ok(vec![]) }`. -/
def SqliteClient.fetch_numbers {α : Type} (fetched : Except DbError (List α))
    (get0 : α → Int) : Except DbError (List Int) :=
  match fetched with
  | Except.error e => Except.error e
  | Except.ok rows =>
    if rows.isEmpty then Except.ok []
    else Except.ok (rows.map get0)

/-! ### Schema orchestrator (`core/src/db/schema.rs`)

The orchestrator owns one generator, one client and the table-name
prefix.  The `HashMap<String, Table>` registry becomes an association
list; the `client.execute` call becomes an oracle from SQL text to an
optional driver-error message (`none` meaning success), matching the two
client implementations whose `execute` only ever produces sqlx-wrapped
errors. -/

/-- Orchestrator state: configured prefix (`pfx` stands for the `prefix`
field), dialect capabilities, the `debug` flag, the registry of declared
tables keyed by logical name, and the current in-flight table. -/
structure Schema where
  pfx : String
  generator : SqlGenerator
  client : String → Option String
  debug : Bool
  tables : List (String × Table)
  current : Option Table

/-- Registry lookup, modelling `HashMap::get` on the `tables` field. -/
def getTable : List (String × Table) → String → Option Table
  | [], _ => Option.none
  | (k, t) :: rest, n => if k = n then some t else getTable rest n

/-- Registry in-place update, modelling mutation through
`HashMap::get_mut`. -/
def putTable : List (String × Table) → String → Table → List (String × Table)
  | [], _, _ => []
  | (k, t) :: rest, n, t2 => if k = n then (k, t2) :: rest else (k, t) :: putTable rest n t2

/-- Shared body of `Schema::create` and `Schema::table`: build a fresh
prefixed table with the given action, run the declaration closure, merge
the columns into the registry entry when the logical name was seen before
(otherwise insert), and set the result as current. -/
def Schema.declare (s : Schema) (table_name : String) (action : TableAction)
    (f : Table → Table) : Schema :=
  let t0 := Table.new (s.pfx ++ table_name)
  let table := f { t0 with action := action }
  match getTable s.tables table_name with
  | some tbl =>
    { s with
      tables := putTable s.tables table_name
        { tbl with columns := tbl.columns ++ table.columns }
      current := some table }
  | Option.none =>
    { s with tables := s.tables ++ [(table_name, table)], current := some table }

/-- Table declaration under the Create action (`Schema::create`). -/
def Schema.create (s : Schema) (table_name : String) (f : Table → Table) : Schema :=
  s.declare table_name TableAction.Create f

/-- Table declaration under the Alter action (`Schema::table`). -/
def Schema.table (s : Schema) (table_name : String) (f : Table → Table) : Schema :=
  s.declare table_name TableAction.Alter f

/-- Body clause list assembled by `Schema::execute_migration`: one clause
per column (kept even when empty), then one drop clause per entry of
`drop_columns`, with no check of the table action. -/
def migrationBodyParts (gen : SqlGenerator) (t : Table) : List String :=
  t.columns.map (fun c => (gen.column c t.name t.action).1)
    ++ t.drop_columns.map gen.drop_column

/-- Footer clause list assembled by `Schema::execute_migration`: non-empty
column footers, then non-empty foreign-key constraint clauses. -/
def migrationFootParts (gen : SqlGenerator) (t : Table) : List String :=
  (t.columns.map (fun c => (gen.column c t.name t.action).2.1)).filter (fun f => !f.isEmpty)
    ++ (t.foreign_keys.map (fun k => gen.foreign_key k t.name t.action)).filter
        (fun f => !f.isEmpty)

/-- Post-statement list assembled by `Schema::execute_migration`. -/
def migrationPostParts (gen : SqlGenerator) (t : Table) : List String :=
  (t.columns.map (fun c => (gen.column c t.name t.action).2.2)).filter (fun f => !f.isEmpty)

/-- Full statement built by `Schema::execute_migration` from the current
table: body and footer joined by commas, post statements by semicolons,
assembled by the dialect `table_sql`. -/
def migrationSql (gen : SqlGenerator) (t : Table) : String :=
  gen.table_sql t.name
    (Str.implode ",\n" (migrationBodyParts gen t ++ migrationFootParts gen t))
    (Str.implode ";\n" (migrationPostParts gen t)) t.action

/-- Outcome of `Schema::execute_migration` (which takes `&self` in the
source, so the orchestrator state is left untouched): the result, paired
with the list of SQL statements handed to the client during the call.
With no current table it returns `InvalidTable` immediately; otherwise it
executes exactly the assembled statement and wraps any driver error. -/
def Schema.execute_migration (s : Schema) : Except DbError Unit × List String :=
  match s.current with
  | Option.none => (Except.error DbError.InvalidTable, [])
  | some table =>
    let sql := migrationSql s.generator table
    match s.client sql with
    | Option.none => (Except.ok (), [sql])
    | some e => (Except.error (DbError.Sqlx e), [sql])

/-! ### Migration runner (`database/src/migrator.rs`)

A run is modelled by the trace of observable calls it makes on the
success path (any failing call aborts the rest through `?`, which the
claims below do not touch).  The database answers that the run reads are
oracle parameters: whether the tracking repository exists, the fetched
batch number, and the fetched list of already ran migration names. -/

/-- Observable calls of `run_migrations`, in the order the source makes
them. -/
inductive MigEvent
  | dropAllTables
  | repositoryCheck
  | createMigrationTable
  | batchRead
  | ranListRead
  | upCall (name : String)
  | downCall (name : String)
  | execMigration (name : String)
  | recordMigration (name : String) (batch : Int)
  | removeMigration (name : String)
  deriving DecidableEq, Repr

/-- Pre-loop bookkeeping of `run_migrations`: skipped entirely when
passive; otherwise drop-all under fresh, then the repository existence
check (with creation when absent), then the batch-number read and the
ran-list read. -/
def preEvents (passive fresh repoExists : Bool) : List MigEvent :=
  if passive then []
  else
    (if fresh then [MigEvent.dropAllTables] else [])
      ++ [MigEvent.repositoryCheck]
      ++ (if repoExists then [] else [MigEvent.createMigrationTable])
      ++ [MigEvent.batchRead, MigEvent.ranListRead]

/-- Trace of one successful `run_migrations` call.  In the source, `up`
is invoked on every unit of a forward run; only `execute_migration` and
the batch recording are guarded by the ran list.  Reverse runs invoke
`down` on every unit and nothing else inside the loop, but share the same
pre-loop bookkeeping. -/
def run_migrations (migs : List String) (up passive fresh : Bool)
    (repoExists : Bool) (batchFetched : Int) (ran : List String) : List MigEvent :=
  let batch := if passive then 1 else batchFetched
  let migration_list := if passive then [] else ran
  preEvents passive fresh repoExists
    ++ migs.flatMap (fun m =>
      if up then
        [MigEvent.upCall m]
          ++ (if !passive && !(migration_list.contains m) then
                [MigEvent.execMigration m, MigEvent.recordMigration m batch]
              else [])
      else [MigEvent.downCall m])

/-! ### Concrete data used by the claim theorems -/

/-- The foreign key declared by the users migration of the repository:
`foreign("parent_id").on("users").reference("id").cascade_on_delete()`. -/
def parentKey : ForeignKey :=
  { column_name := "parent_id"
    foreign_table := "users"
    referenced_column := "id"
    on_delete := true
    on_update := false }

/-- A foreign key with both cascade flags off, whose referencing and
referenced column names differ. -/
def plainKey : ForeignKey :=
  { column_name := "user_id"
    foreign_table := "users"
    referenced_column := "id"
    on_delete := false
    on_update := false }

/-- A fresh orchestrator over the given dialect, as `Schema::new` leaves
it apart from the live connection: empty prefix, empty registry, no
current table, and a client whose executions all succeed. -/
def emptySchema (gen : SqlGenerator) : Schema :=
  { pfx := ""
    generator := gen
    client := fun _ => Option.none
    debug := false
    tables := []
    current := Option.none }

/-- One `create`/`table` invocation: the chosen action together with the
declaration closure it runs on the fresh table. -/
inductive SchemaDecl
  | create (f : Table → Table)
  | alter (f : Table → Table)

/-- Apply one declaration to the orchestrator under logical name `n`. -/
def applyDecl (s : Schema) (n : String) : SchemaDecl → Schema
  | SchemaDecl.create f => s.create n f
  | SchemaDecl.alter f => s.table n f

/-- Columns a declaration commits for logical name `n` under configured
prefix `p`: what its closure leaves in the fresh action-tagged table. -/
def declColumns (p n : String) : SchemaDecl → List Column
  | SchemaDecl.create f =>
    (f { Table.new (p ++ n) with action := TableAction.Create }).columns
  | SchemaDecl.alter f =>
    (f { Table.new (p ++ n) with action := TableAction.Alter }).columns

/-- Column count one declaration contributes. -/
def declContribution (p n : String) (d : SchemaDecl) : Nat :=
  (declColumns p n d).length

/-- Example declaration committing two columns under Create. -/
def declTwoCols : SchemaDecl :=
  SchemaDecl.create (fun t =>
    { t with columns := t.columns
        ++ [Table.freshColumn "id" ColumnDataType.DTId ColumnOption.none,
            Table.freshColumn "name" ColumnDataType.DTString (ColumnOption.length 127)] })

/-- Example declaration committing three more columns under Alter. -/
def declThreeCols : SchemaDecl :=
  SchemaDecl.alter (fun t =>
    { t with columns := t.columns
        ++ [Table.freshColumn "email" ColumnDataType.DTString (ColumnOption.length 127),
            Table.freshColumn "is_dark" ColumnDataType.DTBoolean ColumnOption.none,
            Table.freshColumn "parent_id" ColumnDataType.DTBigInteger ColumnOption.none] })

/-- String column of length 300 carrying a uniqueness constraint (the
example of spec section 8). -/
def longUniqueEmail : Column :=
  { Table.freshColumn "email" ColumnDataType.DTString (ColumnOption.length 300) with
      unique := true }

/-- Identity-key column additionally marked unique. -/
def uniqueIdColumn : Column :=
  { Table.freshColumn "id" ColumnDataType.DTId ColumnOption.none with unique := true }

/-! ### Claim theorems -/

/-- C1: the claim states that for every ForeignKey and both dialect
generators the clause contains ON DELETE CASCADE iff `on_delete` and
ON UPDATE CASCADE iff `on_update`.  Evaluating the MySQL generator at the
repository migration key (`on_delete` set, `on_update` clear) shows the
two flags wired crosswise: the clause carries ON UPDATE CASCADE and no
ON DELETE CASCADE, while the SQLite generator honours the flags as the
claim states. -/
theorem C1_mysql_swaps_cascade_flags :
    parentKey.on_delete = true ∧ parentKey.on_update = false ∧
    strContains (MySqlGenerator.foreign_key parentKey "users" TableAction.Create)
      "ON DELETE CASCADE" = false ∧
    strContains (MySqlGenerator.foreign_key parentKey "users" TableAction.Create)
      "ON UPDATE CASCADE" = true ∧
    strContains (SqliteGenerator.foreign_key parentKey "users" TableAction.Create)
      "on delete cascade" = true ∧
    strContains (SqliteGenerator.foreign_key parentKey "users" TableAction.Create)
      "on update cascade" = false := by
  decide

/-- C2: the claim states the two `fetch_numbers` implementations both
return the first-column values of the fetched rows in order.  Evaluating
both at a successful one-row result shows the MySQL client returning the
empty sequence (its emptiness guard is negated) while the SQLite client
returns the row value. -/
theorem C2_mysql_fetch_numbers_empties_nonempty_rows :
    MySqlClient.fetch_numbers (Except.ok [(5 : Int)]) id = Except.ok [] ∧
    SqliteClient.fetch_numbers (Except.ok [(5 : Int)]) id = Except.ok [5] :=
  ⟨rfl, rfl⟩

/-- C9: `execute_migration` returns the invalid-table error exactly when
no current table exists, and in that case hands no SQL at all to the
client (the Rust method borrows the orchestrator immutably, so no state
changes either way). -/
theorem C9_invalid_table_iff_no_current (s : Schema) :
    ((Schema.execute_migration s).1 = Except.error DbError.InvalidTable ↔
      s.current = Option.none) ∧
    (s.current = Option.none → (Schema.execute_migration s).2 = []) := by
  refine ⟨⟨fun h => ?_, fun h => ?_⟩, fun h => ?_⟩
  · cases hc : s.current with
    | none => rfl
    | some t =>
      rw [Schema.execute_migration, hc] at h
      cases hcl : s.client (migrationSql s.generator t) <;> simp [hcl] at h
  · simp [Schema.execute_migration, h]
  · simp [Schema.execute_migration, h]

/-- C9 witness: a fresh orchestrator has no current table, and on it
`execute_migration` fails with the invalid-table error while executing
nothing. -/
theorem C9_invalid_table_iff_no_current_witness :
    (Schema.execute_migration (emptySchema sqliteGenerator)).1
        = Except.error DbError.InvalidTable ∧
    (Schema.execute_migration (emptySchema sqliteGenerator)).2 = [] :=
  ⟨(C9_invalid_table_iff_no_current (emptySchema sqliteGenerator)).1.mpr rfl,
    (C9_invalid_table_iff_no_current (emptySchema sqliteGenerator)).2 rfl⟩

/-- C10: in the MySQL generator the unique footer replaces whatever
footer the data type produced, and the index footer does the same when
unique is clear, so at most the one winning footer fragment is returned
for any column (in particular a unique Id column loses its PRIMARY KEY
footer). -/
theorem C10_unique_and_index_replace_type_footer (c : Column) (tn : String)
    (a : TableAction) :
    (c.unique = true → (MySqlGenerator.column c tn a).2.1
        = "UNIQUE INDEX `" ++ tn ++ "_" ++ c.name ++ "_unique` (`" ++ c.name ++ "`)") ∧
    (c.unique = false → c.index = true → (MySqlGenerator.column c tn a).2.1
        = "INDEX `" ++ c.name ++ "` (`" ++ c.name ++ "`)") := by
  constructor
  · intro h
    simp [MySqlGenerator.column, h]
  · intro h hi
    simp [MySqlGenerator.column, h, hi]

/-- C10 witness: the Id column marked unique gets exactly the unique
footer, and its PRIMARY KEY declaration is gone. -/
theorem C10_unique_and_index_replace_type_footer_witness :
    (MySqlGenerator.column uniqueIdColumn "users" TableAction.Create).2.1
        = "UNIQUE INDEX `users_id_unique` (`id`)" ∧
    strContains ((MySqlGenerator.column uniqueIdColumn "users" TableAction.Create).2.1)
      "PRIMARY KEY" = false :=
  ⟨(C10_unique_and_index_replace_type_footer uniqueIdColumn "users" TableAction.Create).1 rfl,
    by decide⟩

/-- C7 counterexample: under the Alter action the SQLite generator emits
a clause with no ADD prefix, and its REFERENCES part quotes the
referencing column name again instead of the referenced column (the
quoted referenced column `("id")` never appears). -/
theorem C7_counterexample_sqlite_clause :
    SqliteGenerator.foreign_key plainKey "todos" TableAction.Alter
        = "FOREIGN KEY(\"user_id\") REFERENCES \"users\"(\"user_id\")   " ∧
    strContains (SqliteGenerator.foreign_key plainKey "todos" TableAction.Alter)
      "ADD" = false ∧
    strContains (SqliteGenerator.foreign_key plainKey "todos" TableAction.Alter)
      "(\"id\")" = false := by
  decide

/-- C7 amended: each generator produces exactly one constraint clause.
The MySQL clause is the Create clause prefixed with ADD under Alter, and
its REFERENCES part names the foreign table and the referenced column.
The SQLite clause is identical under every action (so never ADD
prefixed), and its REFERENCES part names the foreign table and the
referencing column name, ignoring the referenced column. -/
theorem C7_constraint_clause_shape (k : ForeignKey) (tn : String) :
    (MySqlGenerator.foreign_key k tn TableAction.Alter
        = "ADD " ++ MySqlGenerator.foreign_key k tn TableAction.Create) ∧
    (∃ p q, MySqlGenerator.foreign_key k tn TableAction.Create
        = p ++ ("REFERENCES `" ++ k.foreign_table ++ "` (`" ++ k.referenced_column ++ "`)")
          ++ q) ∧
    (∀ a, SqliteGenerator.foreign_key k tn a
        = SqliteGenerator.foreign_key k tn TableAction.Create) ∧
    (∃ p q, SqliteGenerator.foreign_key k tn TableAction.Create
        = p ++ ("REFERENCES \"" ++ k.foreign_table ++ "\"(\"" ++ k.column_name ++ "\")")
          ++ q) := by
  refine ⟨?_, ?_, fun a => rfl, ?_⟩
  · simp only [MySqlGenerator.foreign_key, reduceIte, reduceCtorEq, String.empty_append,
      String.append_assoc]
  · refine ⟨" CONSTRAINT `" ++ tn ++ "_" ++ k.column_name ++ "_foreign` FOREIGN KEY (`"
        ++ k.column_name ++ "`) ",
      " " ++ (if k.on_update then "ON DELETE CASCADE" else "") ++ " "
        ++ (if k.on_delete then "ON UPDATE CASCADE" else ""), ?_⟩
    simp only [MySqlGenerator.foreign_key, reduceIte, reduceCtorEq, String.empty_append]
    rw [show ("`) REFERENCES `" : String) = "`)" ++ " " ++ "REFERENCES `" from rfl]
    rw [show ("`) " : String) = "`)" ++ " " from rfl]
    simp only [String.append_assoc]
  · refine ⟨"FOREIGN KEY(\"" ++ k.column_name ++ "\") ",
      " " ++ (if k.on_update then "on update cascade" else "") ++ " "
        ++ (if k.on_delete then "on delete cascade" else "") ++ " ", ?_⟩
    simp only [SqliteGenerator.foreign_key]
    rw [show ("\") REFERENCES \"" : String) = "\")" ++ " " ++ "REFERENCES \"" from rfl]
    rw [show ("\") " : String) = "\")" ++ " " from rfl]
    simp only [String.append_assoc]

/-- C8: a String column longer than 255 with unique or index set is
flagged invalid by `Column::validate`, yet the MySQL generator still
produces a non-empty column clause and still emits the unique (or index)
footer — validation is only a logging pass and never blocks emission. -/
theorem C8_long_string_with_unique_flagged_but_generated (c : Column) (tn : String)
    (l : Int)
    (hdt : c.data_type = ColumnDataType.DTString)
    (hopt : c.option = ColumnOption.length l)
    (hl : 255 < l)
    (hui : c.unique = true ∨ c.index = true) :
    Column.validate c = false ∧
    (MySqlGenerator.column c tn TableAction.Create).1 ≠ "" ∧
    (MySqlGenerator.column c tn TableAction.Create).2.1
      = (if c.unique then
          "UNIQUE INDEX `" ++ tn ++ "_" ++ c.name ++ "_unique` (`" ++ c.name ++ "`)"
        else "INDEX `" ++ c.name ++ "` (`" ++ c.name ++ "`)") := by
  refine ⟨?_, ?_, ?_⟩
  · have h1 : ¬ l ≤ 0 := by omega
    rcases hui with h | h <;> cases hu : c.unsigned <;>
      simp [Column.validate, hdt, hopt, hu, h, h1, hl]
  · simp only [MySqlGenerator.column, hdt, hopt, Column.isStringType, reduceIte, reduceCtorEq]
    split_ifs <;>
      (intro he; have hd := congrArg String.data he; simp [String.data_append] at hd)
  · cases hu : c.unique
    · rcases hui with h | h
      · rw [hu] at h; exact absurd h (by simp)
      · simp [MySqlGenerator.column, hu, h]
    · simp [MySqlGenerator.column, hu]

/-- C8 witness: the spec example itself — a length-300 unique String
column is flagged invalid while its VARCHAR(300) clause and unique
footer are still generated. -/
theorem C8_long_string_with_unique_flagged_but_generated_witness :
    Column.validate longUniqueEmail = false ∧
    (MySqlGenerator.column longUniqueEmail "users" TableAction.Create).1 ≠ "" ∧
    (MySqlGenerator.column longUniqueEmail "users" TableAction.Create).2.1
      = (if longUniqueEmail.unique then
          "UNIQUE INDEX `users_email_unique` (`email`)"
        else "INDEX `email` (`email`)") :=
  C8_long_string_with_unique_flagged_but_generated longUniqueEmail "users" 300
    rfl rfl (by decide) (Or.inl rfl)

/-- C4 counterexample: in a non-passive forward run, a unit whose name is
already in the ran list still has `up` invoked (only `execute_migration`
and the recording are skipped), so the already-applied unit does not
trigger none of the three steps as the claim states. -/
theorem C4_counterexample_up_invoked_for_applied_unit :
    "m1" ∈ (["m1"] : List String) ∧
    MigEvent.upCall "m1" ∈ run_migrations ["m1"] true false false true 2 ["m1"] ∧
    MigEvent.execMigration "m1" ∉ run_migrations ["m1"] true false false true 2 ["m1"] := by
  decide

/-- C4 amended: in a non-passive forward run every unit has `up` invoked;
a unit whose name is in the fetched ran list triggers neither
`execute_migration` nor any recording; and exactly the units not in that
list get the contiguous `up`, then `execute_migration`, then record with
the current batch number sequence. -/
theorem C4_forward_run_step_structure (migs ran : List String) (fresh repoExists : Bool)
    (batch : Int) :
    (∀ m, m ∈ migs →
      MigEvent.upCall m ∈ run_migrations migs true false fresh repoExists batch ran) ∧
    (∀ m, m ∈ ran →
      MigEvent.execMigration m ∉ run_migrations migs true false fresh repoExists batch ran ∧
      ∀ b, MigEvent.recordMigration m b
        ∉ run_migrations migs true false fresh repoExists batch ran) ∧
    (∀ m, m ∈ migs → m ∉ ran →
      [MigEvent.upCall m, MigEvent.execMigration m, MigEvent.recordMigration m batch]
        <:+: run_migrations migs true false fresh repoExists batch ran) := by
  refine ⟨?_, ?_, ?_⟩
  · intro m hm
    simp only [run_migrations]
    refine List.mem_append_right _ (List.mem_flatMap.mpr ⟨m, hm, ?_⟩)
    cases h : ran.contains m <;> simp [h]
  · intro m hm
    constructor
    · intro h
      simp only [run_migrations, List.mem_append, List.mem_flatMap] at h
      rcases h with h | ⟨a, ha, hin⟩
      · cases fresh <;> cases repoExists <;> simp [preEvents] at h
      · simp at hin
        obtain ⟨hna, rfl⟩ := hin
        exact hna hm
    · intro b h
      simp only [run_migrations, List.mem_append, List.mem_flatMap] at h
      rcases h with h | ⟨a, ha, hin⟩
      · cases fresh <;> cases repoExists <;> simp [preEvents] at h
      · simp at hin
        obtain ⟨hna, rfl, rfl⟩ := hin
        exact hna hm
  · intro m hm hr
    obtain ⟨l1, l2, rfl⟩ := List.append_of_mem hm
    have hc : ran.contains m = false := by simpa using hr
    refine ⟨preEvents false fresh repoExists
        ++ l1.flatMap (fun m => [MigEvent.upCall m]
            ++ (if !false && !(ran.contains m) then
                  [MigEvent.execMigration m, MigEvent.recordMigration m batch]
                else [])),
      l2.flatMap (fun m => [MigEvent.upCall m]
            ++ (if !false && !(ran.contains m) then
                  [MigEvent.execMigration m, MigEvent.recordMigration m batch]
                else [])), ?_⟩
    simp [run_migrations, hc, hr, List.flatMap_append]

/-- C4 witness: in the run with units a and b where only a is already
applied, unit b gets the contiguous up, execute, record sequence. -/
theorem C4_forward_run_step_structure_witness :
    "b" ∈ (["a", "b"] : List String) ∧ "b" ∉ (["a"] : List String) ∧
    [MigEvent.upCall "b", MigEvent.execMigration "b", MigEvent.recordMigration "b" 2]
      <:+: run_migrations ["a", "b"] true false false true 2 ["a"] :=
  ⟨by decide, by decide,
    (C4_forward_run_step_structure ["a", "b"] ["a"] false true 2).2.2 "b"
      (by decide) (by decide)⟩

/-- Helper: flat-mapping a one-element constructor over a list is the
plain map. -/
theorem flatMapSingletonMap {α β : Type} (f : α → β) (l : List α) :
    (l.flatMap fun a => [f a]) = l.map f := by
  induction l with
  | nil => rfl
  | cons x xs ih => simp [ih]

/-- C5 counterexample: a non-passive reverse (down) run still performs
the repository-existence check before invoking the down steps, so a
reverse run is not free of tracking-table interaction as the claim
states. -/
theorem C5_counterexample_nonpassive_down_reads_tracking :
    MigEvent.repositoryCheck ∈ run_migrations ["m1"] false false false true 1 [] ∧
    MigEvent.downCall "m1" ∈ run_migrations ["m1"] false false false true 1 [] := by
  decide

/-- C5 amended: a reverse run invokes every down in list order after the
shared pre-loop bookkeeping and never records, removes or executes a
migration; only a passive reverse run performs no tracking-table
interaction at all. -/
theorem C5_down_run_trace (migs ran : List String) (passive fresh repoExists : Bool)
    (batch : Int) :
    run_migrations migs false passive fresh repoExists batch ran
      = preEvents passive fresh repoExists ++ migs.map MigEvent.downCall ∧
    (∀ m b, MigEvent.recordMigration m b
      ∉ run_migrations migs false passive fresh repoExists batch ran) ∧
    (∀ m, MigEvent.removeMigration m
      ∉ run_migrations migs false passive fresh repoExists batch ran) ∧
    (∀ m, MigEvent.execMigration m
      ∉ run_migrations migs false passive fresh repoExists batch ran) ∧
    (passive = true →
      run_migrations migs false passive fresh repoExists batch ran
        = migs.map MigEvent.downCall) := by
  have hshape : run_migrations migs false passive fresh repoExists batch ran
      = preEvents passive fresh repoExists ++ migs.map MigEvent.downCall := by
    simp [run_migrations, flatMapSingletonMap]
  refine ⟨hshape, ?_, ?_, ?_, ?_⟩
  · intro m b h
    rw [hshape] at h
    rcases List.mem_append.mp h with h | h
    · cases passive <;> cases fresh <;> cases repoExists <;> simp [preEvents] at h
    · simp at h
  · intro m h
    rw [hshape] at h
    rcases List.mem_append.mp h with h | h
    · cases passive <;> cases fresh <;> cases repoExists <;> simp [preEvents] at h
    · simp at h
  · intro m h
    rw [hshape] at h
    rcases List.mem_append.mp h with h | h
    · cases passive <;> cases fresh <;> cases repoExists <;> simp [preEvents] at h
    · simp at h
  · intro hp
    subst hp
    simpa [preEvents] using hshape

/-- C5 witness: a passive reverse run is exactly the down calls in list
order. -/
theorem C5_down_run_trace_witness :
    run_migrations ["m1"] false true false true 1 [] = [MigEvent.downCall "m1"] :=
  (C5_down_run_trace ["m1"] [] true false true 1).2.2.2.2 rfl

/-- C6 counterexample: one reachable `create` invocation whose closure
calls `drop_column` leaves a current table under the Create action with a
non-empty drop list, and that table contributes a drop-column clause to
the assembled body. -/
theorem C6_counterexample_create_with_drop_column :
    ∃ t, ((emptySchema (mysqlGenerator "utf8mb4_general_ci")).create "users"
          (fun tb => tb.drop_column "legacy")).current = some t ∧
      t.action = TableAction.Create ∧ t.drop_columns ≠ [] ∧
      migrationBodyParts (mysqlGenerator "utf8mb4_general_ci") t
        = ["DROP COLUMN `legacy`"] := by
  refine ⟨⟨"users", [], [], "", TableAction.Create, ["legacy"]⟩, rfl, rfl, by decide, rfl⟩

/-- C6 amended: nothing enforces the invariant — a Create-action table
carries exactly the drop names its declaration closure pushed, and
`execute_migration` turns each of them into a drop clause of the body
regardless of the Create action, so the invariant holds only for
declarations that push none. -/
theorem C6_drop_columns_follow_closure (s : Schema) (n : String)
    (cols : List Column) (drops : List String) :
    ∃ t, (s.create n (fun tb =>
        { tb with columns := tb.columns ++ cols, drop_columns := tb.drop_columns ++ drops }
      )).current = some t ∧
      t.action = TableAction.Create ∧
      t.drop_columns = drops ∧
      migrationBodyParts s.generator t
        = cols.map (fun c => (s.generator.column c (s.pfx ++ n) TableAction.Create).1)
          ++ drops.map s.generator.drop_column := by
  refine ⟨⟨s.pfx ++ n, cols, [], "", TableAction.Create, drops⟩, ?_, rfl, rfl, ?_⟩
  · cases h : getTable s.tables n <;>
      simp [Schema.create, Schema.declare, h, Table.new]
  · simp [migrationBodyParts]

/-- Helper: updating the entry of a present key makes lookup return the
new table. -/
theorem getTablePut : ∀ (l : List (String × Table)) (n : String) (t t2 : Table),
    getTable l n = some t → getTable (putTable l n t2) n = some t2
  | [], n, t, t2, h => by simp [getTable] at h
  | (k, u) :: rest, n, t, t2, h => by
    by_cases hk : k = n
    · simp [getTable, putTable, hk]
    · simp only [getTable, putTable, if_neg hk] at h ⊢
      exact getTablePut rest n t t2 h

/-- Helper: inserting an absent key makes lookup return the new table. -/
theorem getTableAppendNew : ∀ (l : List (String × Table)) (n : String) (t : Table),
    getTable l n = Option.none → getTable (l ++ [(n, t)]) n = some t
  | [], n, t, _ => by simp [getTable]
  | (k, u) :: rest, n, t, h => by
    by_cases hk : k = n
    · simp [getTable, if_pos hk] at h
    · simp only [List.cons_append, getTable, if_neg hk] at h ⊢
      exact getTableAppendNew rest n t h

/-- Helper: declarations never change the configured prefix. -/
theorem applyDecl_pfx (s : Schema) (n : String) (d : SchemaDecl) :
    (applyDecl s n d).pfx = s.pfx := by
  cases d <;> cases h : getTable s.tables n <;>
    simp [applyDecl, Schema.create, Schema.table, Schema.declare, h]

/-- Helper: a declaration of a not-yet-seen logical name inserts exactly
the columns its closure committed. -/
theorem applyDecl_absent (s : Schema) (n : String) (d : SchemaDecl)
    (h : getTable s.tables n = Option.none) :
    ∃ tb, getTable (applyDecl s n d).tables n = some tb ∧
      tb.columns = declColumns s.pfx n d := by
  cases d with
  | create f =>
    refine ⟨f { Table.new (s.pfx ++ n) with action := TableAction.Create }, ?_, rfl⟩
    simp only [applyDecl, Schema.create, Schema.declare, h]
    exact getTableAppendNew s.tables n _ h
  | alter f =>
    refine ⟨f { Table.new (s.pfx ++ n) with action := TableAction.Alter }, ?_, rfl⟩
    simp only [applyDecl, Schema.table, Schema.declare, h]
    exact getTableAppendNew s.tables n _ h

/-- Helper: a declaration of an already-seen logical name appends its
columns to the registry entry instead of replacing it. -/
theorem applyDecl_present (s : Schema) (n : String) (d : SchemaDecl) (t : Table)
    (h : getTable s.tables n = some t) :
    getTable (applyDecl s n d).tables n
      = some { t with columns := t.columns ++ declColumns s.pfx n d } := by
  cases d with
  | create f =>
    simp only [applyDecl, Schema.create, Schema.declare, h]
    exact getTablePut s.tables n t _ h
  | alter f =>
    simp only [applyDecl, Schema.table, Schema.declare, h]
    exact getTablePut s.tables n t _ h

/-- Helper: folding further declarations over a present entry adds the
sum of their contributions to its column count. -/
theorem C3_fold_present (n : String) : ∀ (ds : List SchemaDecl) (s : Schema) (t : Table),
    getTable s.tables n = some t →
    ∃ t2, getTable ((ds.foldl (fun acc d => applyDecl acc n d)) s).tables n = some t2 ∧
      t2.columns.length = t.columns.length + (ds.map (declContribution s.pfx n)).sum
  | [], s, t, h => ⟨t, h, by simp⟩
  | d :: ds, s, t, h => by
    have h1 := applyDecl_present s n d t h
    obtain ⟨t2, h2, hlen⟩ := C3_fold_present n ds (applyDecl s n d) _ h1
    refine ⟨t2, by simpa using h2, ?_⟩
    rw [hlen]
    simp [applyDecl_pfx, declContribution]
    omega

/-- C3: a non-empty sequence of `create`/`table` declarations of the same
logical table on one Schema instance merges columns in the registry
rather than overwriting: the committed column count equals the sum of the
column counts contributed by each declaration. -/
theorem C3_repeated_declarations_merge_columns (s : Schema) (n : String)
    (ds : List SchemaDecl) (h0 : getTable s.tables n = Option.none) (hne : ds ≠ []) :
    ∃ t, getTable ((ds.foldl (fun acc d => applyDecl acc n d)) s).tables n = some t ∧
      t.columns.length = (ds.map (declContribution s.pfx n)).sum := by
  cases ds with
  | nil => exact absurd rfl hne
  | cons d ds =>
    obtain ⟨tb, h1, hcols⟩ := applyDecl_absent s n d h0
    obtain ⟨t2, h2, hlen⟩ := C3_fold_present n ds (applyDecl s n d) tb h1
    refine ⟨t2, by simpa using h2, ?_⟩
    rw [hlen, hcols]
    simp [applyDecl_pfx, declContribution]

/-- C3 witness: a fresh orchestrator given a two-column create of users
followed by a three-column alter of users ends with a five-column
registry entry (the 2 + 3 sum of contributions). -/
theorem C3_repeated_declarations_merge_columns_witness :
    getTable (emptySchema sqliteGenerator).tables "users" = Option.none ∧
    ([declTwoCols, declThreeCols] : List SchemaDecl) ≠ [] ∧
    (([declTwoCols, declThreeCols].map
        (declContribution (emptySchema sqliteGenerator).pfx "users")).sum = 5) ∧
    ∃ t, getTable (([declTwoCols, declThreeCols].foldl
          (fun acc d => applyDecl acc "users" d)) (emptySchema sqliteGenerator)).tables
        "users" = some t ∧
      t.columns.length
        = ([declTwoCols, declThreeCols].map
            (declContribution (emptySchema sqliteGenerator).pfx "users")).sum :=
  ⟨rfl, by simp, rfl,
    C3_repeated_declarations_merge_columns (emptySchema sqliteGenerator) "users"
      [declTwoCols, declThreeCols] rfl (by simp)⟩
